import Mathlib

/-!
Verification development for the Seymour screen-masking controller
integration (`src/__init__.py`, `src/remote.py`, `src/config_flow.py`,
`src/entity.py`, `src/switch.py`, `src/sensor.py`, `src/select.py`).

The Python code is shallowly embedded: each service handler or entity
property becomes a Lean function over explicit state, device-call
outcomes become `Except` values, and the Python exception classes that
the handlers catch become constructors of `PyExc`.  The `pySeymour`
device library is not part of the sources; the few facts needed from it
(`MOTOR_IDS`, `toggle_jog`) are modelled from the specification and say
so in their doc comments.
-/

/-- The Python exception classes that appear in the handlers' `try/except`
blocks.  In Python's class hierarchy `ConnectionError` and (since 3.10)
`TimeoutError` are subclasses of `OSError`; `haError` stands for
`HomeAssistantError`, `keyError` for `KeyError`. -/
inductive PyExc
  | timeoutError
  | osError
  | connectionError
  | valueError
  | keyError
  | haError
deriving DecidableEq, Repr

/-- Python's `except OSError` also catches `ConnectionError` and
`TimeoutError`, which are subclasses of `OSError`. -/
def isOSError : PyExc → Bool
  | .timeoutError => true
  | .osError => true
  | .connectionError => true
  | _ => false

/-- Per-motor data of one ratio entry (`MotorInfo{position, adjustment}`
in the spec's data model; positions may be unset). -/
structure MotorInfo where
  position : Option Int
  adjustment : Option Int
deriving DecidableEq, Repr

/-- One entry of the ratio table: `RatioInfo{label, width, height,
diagonal, motors}`. -/
structure RatioInfo where
  label : String
  width : Int
  height : Int
  diagonal : Int
  motors : List (Nat × MotorInfo)
deriving DecidableEq, Repr

/-- State of `device.mask_ratio_settings`: the ratio table keyed by ratio id, the
motor-id and movement-code label tables, and the current selections.
`none` models Python `None` (unset). -/
structure MaskRatioSettings where
  num_ratios : Nat
  ratios : List (Int × RatioInfo)
  motors : List (String × String)
  movement_codes : List (String × String)
  current_ratio : Option Int
  current_motor_id : Option String
  current_movement_code : Option String
deriving DecidableEq, Repr

/-- Python `dict.get(k)` / `k in d` on an association list with integer
keys (the ratio table). -/
def dict_get {α : Type} (l : List (Int × α)) (k : Int) : Option α :=
  (l.find? (fun p => p.1 == k)).map Prod.snd

/-! ## `src/__init__.py`: `async_setup_entry`

The startup readiness loop (`src/__init__.py` lines 49-59):

```
timeout = 10      # seconds
interval = 0.5    # check every 0.5 seconds
elapsed_time = 0
while not device.current_motor_positions.num_motors and elapsed_time < timeout:
    await asyncio.sleep(interval)
    elapsed_time += interval
if not device.current_motor_positions.num_motors:
    return False
```

Time is modelled in half-second units (0.5 is exactly representable in
binary floating point, so the Python float arithmetic here is exact and
`elapsed_time` walks 0, 0.5, ..., 10.0): `timeout` becomes 20 units and
each sleep one unit.  `stream k` is the value of
`device.current_motor_positions.num_motors` observed at the check made
after `k` sleeps (the background reader task mutates it). -/

/-- The readiness loop: starting at elapsed time `elapsed` (in
half-second units), keep sleeping while `num_motors` reads 0 and less
than 20 half-seconds (10 s) have elapsed; return the elapsed time at
exit. -/
def pollElapsed (stream : Nat → Nat) (elapsed : Nat) : Nat :=
  if stream elapsed = 0 ∧ elapsed < 20 then pollElapsed stream (elapsed + 1)
  else elapsed
termination_by 20 - elapsed
decreasing_by simp_wf; omega

/-- Setup via `async_setup_entry` after the config entry is loaded:
`connect_and_queries` is the combined outcome of `device.connect()` and
the three initial queries inside the `try` block; on success the
readiness loop runs and the entry returns `False` when `num_motors` is
still 0, `True` (platforms forwarded, entities created) otherwise.
`except TimeoutError` and `except OSError` both return `False`; any
other exception propagates. -/
def async_setup_entry (connect_and_queries : Except PyExc Unit)
    (stream : Nat → Nat) : Except PyExc Bool :=
  match connect_and_queries with
  | .ok () =>
      if stream (pollElapsed stream 0) = 0 then .ok false else .ok true
  | .error e =>
      if e = .timeoutError then .ok false
      else if isOSError e then .ok false
      else .error e

/-- Helper for the motor service handlers in `src/remote.py`: every one
of them wraps its single device call in
`try: ... except ConnectionError: log except ValueError: log`. -/
def catch_conn_value (dev : Except PyExc Unit) : Except PyExc Unit :=
  match dev with
  | .ok () => .ok ()
  | .error e =>
      if e = .connectionError ∨ e = .valueError then .ok () else .error e

/-- Handler `home_motors_service` (`src/remote.py`): calls `device.home(motor_id)`
and catches `ConnectionError` and `ValueError`, logging them; the
service call itself returns normally in those cases. -/
def home_motors_service (motor_id : String) (dev_home : Except PyExc Unit) :
    Except PyExc Unit :=
  catch_conn_value dev_home

theorem pollElapsed_le (stream : Nat → Nat) :
    ∀ d elapsed, 20 - elapsed ≤ d → elapsed ≤ 20 → pollElapsed stream elapsed ≤ 20 := by
  intro d
  induction d with
  | zero =>
      intro elapsed hd he
      rw [pollElapsed]
      have : ¬ (stream elapsed = 0 ∧ elapsed < 20) := by omega
      simp only [this, if_false]
      exact he
  | succ n ih =>
      intro elapsed hd he
      rw [pollElapsed]
      by_cases h : stream elapsed = 0 ∧ elapsed < 20
      · simp only [h, if_true]
        exact ih (elapsed + 1) (by omega) (by omega)
      · simp only [h, if_false]
        exact he

theorem pollElapsed_stalled (stream : Nat → Nat)
    (hz : ∀ k, k ≤ 20 → stream k = 0) :
    ∀ d elapsed, 20 - elapsed ≤ d → elapsed ≤ 20 → pollElapsed stream elapsed = 20 := by
  intro d
  induction d with
  | zero =>
      intro elapsed hd he
      rw [pollElapsed]
      have : ¬ (stream elapsed = 0 ∧ elapsed < 20) := by omega
      simp only [this, if_false]
      omega
  | succ n ih =>
      intro elapsed hd he
      rw [pollElapsed]
      by_cases h : stream elapsed = 0 ∧ elapsed < 20
      · simp only [h, if_true]
        exact ih (elapsed + 1) (by omega) (by omega)
      · simp only [h, if_false]
        have := hz elapsed he
        omega

/-! ## `src/remote.py`: service registration and handlers -/

/-- Modelled from the spec: `pySeymour.constants.MOTOR_IDS` is not under
`src/`; the spec's data model has "motors: mapping from motor_id letter
to human label" and the glossary names the masking-panel actuators
"identified by a single letter (T/B/L/R, etc.)". -/
def MOTOR_IDS : List (String × String) :=
  [("T", "Top"), ("B", "Bottom"), ("L", "Left"), ("R", "Right")]

/-- Python's `list(MOTOR_IDS.keys())`, the domain of the `motor_id` field in the
`move_motors` / `home_motors` / `halt_motors` / `calibrate_motors`
service schemas. -/
def motor_id_keys : List String := MOTOR_IDS.map Prod.fst

/-- Observable actions of a service handler, in the order they happen. -/
inductive ServiceEvent
  | setMovementCode (mc : Option String)
  | deviceMoveMotors (direction motor_id : String)
  | deviceUpdate (ratio_id : Int)
  | deviceSelectRatio (ar : String)
  | deviceAttrCall (cmd : String)
  | logInvalidDirection
deriving DecidableEq, Repr

/-- The `move_motors` service schema
(`vol.Required("direction"): vol.In(["in", "out"])`,
`vol.Required("motor_id"): vol.In(list(MOTOR_IDS.keys()))`,
`vol.Optional("movement_code", default=None): vol.Any(None, "J", "P")`);
Home Assistant validates a service call against it before the handler
runs. -/
def move_motors_schema_ok (direction motor_id : String)
    (movement_code : Option String) : Bool :=
  ["in", "out"].contains direction
    && motor_id_keys.contains motor_id
    && (movement_code == none || movement_code == some "J" || movement_code == some "P")

/-- The body of `move_motors_service`: assign
`mask_ratio_settings.current_movement_code = movement_code`, then branch
on the direction and call `device.move_motors(direction, motor_id)`; the
whole body is wrapped in `try/except` catching `ConnectionError` and
`ValueError`.  Returns the final settings, the ordered event trace, and
the call's outcome. -/
def move_motors_handler (st : MaskRatioSettings) (direction motor_id : String)
    (movement_code : Option String) (dev : Except PyExc Unit) :
    MaskRatioSettings × List ServiceEvent × Except PyExc Unit :=
  let st2 := { st with current_movement_code := movement_code }
  if direction = "in" then
    (st2, [.setMovementCode movement_code, .deviceMoveMotors "in" motor_id],
      catch_conn_value dev)
  else if direction = "out" then
    (st2, [.setMovementCode movement_code, .deviceMoveMotors "out" motor_id],
      catch_conn_value dev)
  else
    (st2, [.setMovementCode movement_code, .logInvalidDirection], .ok ())

/-- A `move_motors` service call end to end: schema validation first
(`none` = rejected with `vol.Invalid`, handler never runs), then the
handler. -/
def move_motors_service (st : MaskRatioSettings) (direction motor_id : String)
    (movement_code : Option String) (dev : Except PyExc Unit) :
    Option (MaskRatioSettings × List ServiceEvent × Except PyExc Unit) :=
  if move_motors_schema_ok direction motor_id movement_code then
    some (move_motors_handler st direction motor_id movement_code dev)
  else none

/-- Python's `options = ratio_id_list + list(range(990, 1000))`: the domain of the
`update_ratio` service schema, where `ratio_id_list` collects the keys of
`device.mask_ratio_settings.ratios` at platform setup. -/
def update_ratio_options (ratio_keys : List Int) : List Int :=
  ratio_keys ++ [990, 991, 992, 993, 994, 995, 996, 997, 998, 999]

/-- An `update_ratio` service call end to end: the schema
`vol.Required("ratio_id"): vol.In(options)` rejects any id outside
`options` (`none`: no handler, no device call, no wire traffic);
otherwise `update_ratio_service` calls `device.update(ratio_id)`,
catching `ConnectionError` and `ValueError`. -/
def update_ratio_service (ratio_keys : List Int) (ratio_id : Int)
    (dev : Except PyExc Unit) :
    Option (List ServiceEvent × Except PyExc Unit) :=
  if ratio_id ∈ update_ratio_options ratio_keys then
    some ([.deviceUpdate ratio_id], catch_conn_value dev)
  else none

/-- The set `VALID_COMMANDS` (`src/remote.py` lines 26-31). -/
def VALID_COMMANDS : List String :=
  ["clear", "halt", "home", "diagnostics"]

/-- The loop `for cmd in command:` in `async_send_command`: iterating a
Python string yields its single-character substrings; each is checked
against `VALID_COMMANDS` and, if valid, `getattr(self._device, cmd)()`
is invoked; the first invalid one raises `HomeAssistantError`.  Returns
the device attributes invoked before any failure and the raised
exception, if any. -/
def send_chars : List Char → List ServiceEvent × Option PyExc
  | [] => ([], none)
  | c :: rest =>
      if String.singleton c ∈ VALID_COMMANDS then
        let r := send_chars rest
        (ServiceEvent.deviceAttrCall (String.singleton c) :: r.1, r.2)
      else ([], some .haError)

/-- Method `SeymourRemote.async_send_command`: the `"set_aspect_ratio"` branch
requires a non-empty `AR` (else `HomeAssistantError`) and calls
`device.select_ratio(AR)` with `ConnectionError`, `ValueError` and
`HomeAssistantError` caught and logged; every other command string is
iterated character by character per `send_chars`.  `dev_select` is the
outcome of the `select_ratio` device call when that path is taken. -/
def async_send_command (command ar : String) (dev_select : Except PyExc Unit) :
    List ServiceEvent × Option PyExc :=
  if command = "set_aspect_ratio" then
    if ar = "" then ([], some .haError)
    else
      ([.deviceSelectRatio ar],
        match dev_select with
        | .ok () => none
        | .error e =>
            if e = .connectionError ∨ e = .valueError ∨ e = .haError then none
            else some e)
  else send_chars command.toList

/-! ## `src/__init__.py` / `src/entity.py`: the unsolicited-update signal -/

/-- Signal name `SEYMOUR_UPDATE_SIGNAL` (`src/const.py`). -/
def SEYMOUR_UPDATE_SIGNAL : String := "seymour_update"

/-- One `async_dispatcher_send` broadcast: the signal name and the
positional payload arguments passed along with it (none here). -/
structure DispatchMessage where
  signal : String
  payload : Option String
deriving DecidableEq, Repr

/-- Callback `seymour_update_callback(message)` (`src/__init__.py` lines 34-37):
the transport's notification callback; its `message` argument is never
used and it broadcasts `async_dispatcher_send(hass, SEYMOUR_UPDATE_SIGNAL)`
with no payload. -/
def seymour_update_callback (message : String) : DispatchMessage :=
  { signal := SEYMOUR_UPDATE_SIGNAL, payload := none }

/-- The steps of the `_update` closure that
`SeymourEntity.async_added_to_hass` connects to the signal. -/
inductive EntityAction
  | setStates
  | writeHaState
deriving DecidableEq, Repr

/-- Closure `_update` (`src/entity.py` lines 55-58): takes no dispatch payload;
it re-reads device state (`self.set_states()`) and then writes the
entity's own state (`self.async_write_ha_state()`). -/
def entity_dispatch_update : List EntityAction :=
  [.setStates, .writeHaState]

/-! ## `src/switch.py` and `toggle_jog` -/

/-- Modelled from the spec: `pySeymour.device.SeymourScreenController.toggle_jog`
is not under `src/`; spec section 4.5 says it "flips current_movement_code
between \"J\" and \"none\"".  The flip sends `"J"` to unset and anything
else (unset, or a stale `"P"`, on which the spec is silent) to `"J"`;
either way its range is only `"J"`/unset. -/
def toggle_jog (mc : Option String) : Option String :=
  if mc = some "J" then none else some "J"

/-- Method `SeymourSwitch.async_turn_on` for the `jog_mode` switch
(`src/switch.py` lines 74-78): invokes `getattr(self._device, "toggle_jog")()`. -/
def switch_turn_on (mc : Option String) : Option String :=
  toggle_jog mc

/-- Method `SeymourSwitch.async_turn_off` for the `jog_mode` switch
(`src/switch.py` lines 80-84): invokes the same
`getattr(self._device, "toggle_jog")()` as turning on. -/
def switch_turn_off (mc : Option String) : Option String :=
  toggle_jog mc

/-! ## `src/sensor.py` and `src/select.py`: the ratio lookup -/

/-- The shared subscript
`device.mask_ratio_settings.ratios[device.mask_ratio_settings.current_ratio]`
of the Screen Width / Height / Diagonal `value_fn`s: an unguarded Python
`dict` subscript, raising `KeyError` when `current_ratio` is unset
(`None` is not a key) or not a key of the table. -/
def ratio_subscript (ms : MaskRatioSettings) : Except PyExc RatioInfo :=
  match ms.current_ratio with
  | none => .error .keyError
  | some k =>
      match dict_get ms.ratios k with
      | some info => .ok info
      | none => .error .keyError

/-- Sensor `value_fn` of the `width` sensor (`src/sensor.py`):
`device.mask_ratio_settings.ratios[...].width`.  For this description
`motor_id` is `None`, so `SeymourSensor.native_value` returns
`value_fn(self._device)` directly, with no `try/except` around it. -/
def sensor_width_value (ms : MaskRatioSettings) : Except PyExc Int :=
  (ratio_subscript ms).map RatioInfo.width

/-- Sensor `value_fn` of the `height` sensor (`src/sensor.py`). -/
def sensor_height_value (ms : MaskRatioSettings) : Except PyExc Int :=
  (ratio_subscript ms).map RatioInfo.height

/-- Sensor `value_fn` of the `diagonal` sensor (`src/sensor.py`). -/
def sensor_diagonal_value (ms : MaskRatioSettings) : Except PyExc Int :=
  (ratio_subscript ms).map RatioInfo.diagonal

/-- Property `SeymourSelect.current_option` for the `ratio` select
(`src/select.py` lines 85-92): guarded —
`ratios.get(int(current_ratio), None).label if current_ratio in ratios
else ""`.  When the membership test passes the `get` necessarily finds
the entry, so the found branch is the only reachable one of the inner
match. -/
def select_ratio_current_option (ms : MaskRatioSettings) : String :=
  match ms.current_ratio with
  | none => ""
  | some k =>
      match dict_get ms.ratios k with
      | some info => info.label
      | none => ""

/-- Predicate: `current_ratio` fails to name an entry of the ratio table: it is
unset, or set to a key absent from `ratios`. -/
def current_ratio_missing (ms : MaskRatioSettings) : Bool :=
  match ms.current_ratio with
  | none => true
  | some k => (dict_get ms.ratios k).isNone

/-! ## `src/config_flow.py`: the identification frame -/

/-- The identification frame `_query_serial_device` writes during USB
discovery (`src/config_flow.py`: `ser.write(b"[01Y]")`). -/
def identification_frame : String := "[01Y]"

/-- The wire-frame shape the claim asserts:
`'[' + <address:2> + <command:2> + <payload:var> + ']'`.
This definition follows the spec's words (section 6, "ASCII frames
`[<addr:2><cmd:2><payload:var>]`") so the frame actually written can be
compared against it. -/
def spec_frame_shape (s : String) : Prop :=
  ∃ addr cmd payload : String,
    addr.length = 2 ∧ cmd.length = 2 ∧
    s = "[" ++ addr ++ cmd ++ payload ++ "]"

/-! ## Claim theorems -/

theorem mem_update_ratio_options (keys : List Int) (rid : Int) :
    rid ∈ update_ratio_options keys ↔ rid ∈ keys ∨ (990 ≤ rid ∧ rid ≤ 999) := by
  unfold update_ratio_options
  rw [List.mem_append]
  simp only [List.mem_cons, List.not_mem_nil, or_false]
  constructor
  · rintro (h | h)
    · exact Or.inl h
    · right; omega
  · rintro (h | h)
    · exact Or.inl h
    · right; omega

/-- Claim C1: the `update_ratio` service accepts a `ratio_id` if and only
if it is a key of the queried ratios table or an integer in `990..999`;
any other value is rejected by schema validation and the handler (hence
any device operation or wire traffic) never runs. -/
theorem update_ratio_domain (keys : List Int) (rid : Int) (dev : Except PyExc Unit) :
    ((update_ratio_service keys rid dev).isSome ↔
        rid ∈ keys ∨ (990 ≤ rid ∧ rid ≤ 999))
  ∧ (¬ (rid ∈ keys ∨ (990 ≤ rid ∧ rid ≤ 999)) →
        update_ratio_service keys rid dev = none) := by
  have hiff : (update_ratio_service keys rid dev).isSome ↔
      rid ∈ update_ratio_options keys := by
    unfold update_ratio_service
    split <;> simp_all
  refine ⟨hiff.trans (mem_update_ratio_options keys rid), fun h => ?_⟩
  unfold update_ratio_service
  exact if_neg (fun hc => h ((mem_update_ratio_options keys rid).mp hc))

theorem update_ratio_domain_witness :
    (update_ratio_service [2, 3] 994 (.ok ())).isSome = true
  ∧ update_ratio_service [2, 3] 5 (.ok ()) = none := by
  refine ⟨?_, ?_⟩
  · exact (update_ratio_domain [2, 3] 994 (.ok ())).1.mpr (by decide)
  · exact (update_ratio_domain [2, 3] 5 (.ok ())).2 (by decide)

/-- Claim C2, counterexample: the identification frame `[01Y]` written
during USB discovery does not have the claimed
`'[' + <addr:2> + <cmd:2> + <payload> + ']'` shape — any string of that
shape has length at least 6, but the frame has length 5 (its command is
the single character `Y`). -/
theorem identification_frame_not_spec_shape :
    ¬ spec_frame_shape identification_frame := by
  rintro ⟨addr, cmd, payload, ha, hc, hs⟩
  have hlen := congrArg String.length hs
  rw [show identification_frame.length = 5 from rfl] at hlen
  simp only [String.length_append, ha, hc,
    show ("[" : String).length = 1 from rfl,
    show ("]" : String).length = 1 from rfl] at hlen
  omega

/-- Claim C2, amended: the identification frame written during USB
discovery is bracket-delimited with the 2-character address `01`, but
its command is the single character `Y` (1 character, not 2) and its
payload is empty. -/
theorem identification_frame_shape :
    identification_frame = "[" ++ "01" ++ "Y" ++ "]"
  ∧ ("01" : String).length = 2 ∧ ("Y" : String).length = 1 :=
  ⟨rfl, rfl, rfl⟩

/-- Claim C3: after the initial connect and queries succeed, setup polls
`current_motor_positions.num_motors` in 0.5-second steps (half-second
units here) for at most 20 steps = 10 seconds; if `num_motors` reads 0
at every check through the budget, `async_setup_entry` returns `False`,
and it returns `True` (platforms forwarded, entities created) only when
`num_motors` ended up positive. -/
theorem setup_poll_budget (stream : Nat → Nat) :
    pollElapsed stream 0 ≤ 20
  ∧ ((∀ k, k ≤ 20 → stream k = 0) →
        async_setup_entry (.ok ()) stream = .ok false)
  ∧ (async_setup_entry (.ok ()) stream = .ok true →
        0 < stream (pollElapsed stream 0)) := by
  refine ⟨pollElapsed_le stream 20 0 (by omega) (by omega), ?_, ?_⟩
  · intro hz
    have h20 : pollElapsed stream 0 = 20 :=
      pollElapsed_stalled stream hz 20 0 (by omega) (by omega)
    unfold async_setup_entry
    rw [h20, hz 20 (le_refl 20)]
    simp
  · intro h
    unfold async_setup_entry at h
    by_cases hv : stream (pollElapsed stream 0) = 0
    · rw [if_pos hv] at h
      simp at h
    · omega

theorem setup_poll_budget_witness :
    pollElapsed (fun _ => 0) 0 ≤ 20
  ∧ async_setup_entry (.ok ()) (fun _ => 0) = .ok false := by
  have h := setup_poll_budget (fun _ => 0)
  exact ⟨h.1, h.2.1 (fun k _ => rfl)⟩

/-- Claim C4: an initial `TimeoutError` or `OSError` inside
`async_setup_entry` aborts setup by returning `False`, whereas a later
`ConnectionError` or `ValueError` raised by the device operation inside
`home_motors_service` is caught and logged and the service call returns
normally without raising. -/
theorem setup_abort_vs_service_swallow (stream : Nat → Nat) (motor_id : String) :
    async_setup_entry (.error .timeoutError) stream = .ok false
  ∧ async_setup_entry (.error .osError) stream = .ok false
  ∧ home_motors_service motor_id (.error .connectionError) = .ok ()
  ∧ home_motors_service motor_id (.error .valueError) = .ok () :=
  ⟨rfl, rfl, rfl, rfl⟩

/-- Claim C5: `seymour_update_callback` discards its `message` argument —
any two messages produce the same broadcast — and broadcasts the bare
`SEYMOUR_UPDATE_SIGNAL` with no payload; the `_update` handler every
entity connects to that signal re-reads device state (`set_states`) and
writes the entity's own state, consuming nothing from the signal. -/
theorem update_callback_bare_signal (m m2 : String) :
    seymour_update_callback m =
      { signal := SEYMOUR_UPDATE_SIGNAL, payload := none }
  ∧ seymour_update_callback m = seymour_update_callback m2
  ∧ (seymour_update_callback m).payload = none
  ∧ entity_dispatch_update = [.setStates, .writeHaState] :=
  ⟨rfl, rfl, rfl, rfl⟩

theorem move_motors_schema_ok_iff (d m : String) (mc : Option String) :
    move_motors_schema_ok d m mc = true ↔
      (d = "in" ∨ d = "out") ∧ m ∈ motor_id_keys ∧
        (mc = none ∨ mc = some "J" ∨ mc = some "P") := by
  unfold move_motors_schema_ok
  simp [List.elem_iff, and_assoc, or_assoc]

/-- Claim C6: the `move_motors` service accepts a call exactly when the
direction is `"in"` or `"out"`, the `motor_id` is a key of `MOTOR_IDS`
and the movement code is `None`/`"J"`/`"P"`; on an accepted call the
handler sets `current_movement_code` to the supplied movement code
(default `None`) first and then calls `device.move_motors` with exactly
the given direction and motor id. -/
theorem move_motors_schema_and_trace (st : MaskRatioSettings) (d m : String)
    (mc : Option String) (dev : Except PyExc Unit) :
    ((move_motors_service st d m mc dev).isSome ↔
        (d = "in" ∨ d = "out") ∧ m ∈ motor_id_keys ∧
          (mc = none ∨ mc = some "J" ∨ mc = some "P"))
  ∧ ((d = "in" ∨ d = "out") →
        (move_motors_handler st d m mc dev).1.current_movement_code = mc
      ∧ (move_motors_handler st d m mc dev).2.1 =
          [ServiceEvent.setMovementCode mc, ServiceEvent.deviceMoveMotors d m]) := by
  constructor
  · rw [← move_motors_schema_ok_iff d m mc]
    unfold move_motors_service
    split <;> simp_all
  · intro hd
    rcases hd with rfl | rfl <;> exact ⟨rfl, rfl⟩

theorem move_motors_schema_and_trace_witness :
    ((move_motors_service
        ⟨0, [], [], [], none, none, none⟩ "in" "T" (some "J") (.ok ())).isSome = true)
  ∧ (move_motors_handler
        ⟨0, [], [], [], none, none, none⟩ "in" "T" (some "J") (.ok ())).2.1 =
      [ServiceEvent.setMovementCode (some "J"),
       ServiceEvent.deviceMoveMotors "in" "T"] := by
  have h := move_motors_schema_and_trace
    ⟨0, [], [], [], none, none, none⟩ "in" "T" (some "J") (.ok ())
  exact ⟨h.1.mpr (by decide), (h.2 (Or.inl rfl)).2⟩

/-- Claim C7, counterexample: under the spec's flip between `"J"` and
unset, two toggles starting from the movement code `"P"` do not return
to `"P"` — the flip's range is only `"J"`/unset, so no reading of the
spec makes it an involution on the full tri-state. -/
theorem toggle_jog_not_involution_at_P :
    toggle_jog (toggle_jog (some "P")) ≠ some "P" := by
  decide

/-- Claim C7, amended: restricted to the values the spec defines the flip
over — `"J"` and unset — `toggle_jog` is an involution, so turning the
jog switch on and then off (both of which invoke the same
`device.toggle_jog`) restores `current_movement_code`. -/
theorem toggle_jog_round_trip (mc : Option String)
    (h : mc = some "J" ∨ mc = none) :
    switch_turn_off (switch_turn_on mc) = mc
  ∧ toggle_jog (toggle_jog mc) = mc := by
  rcases h with rfl | rfl <;> exact ⟨rfl, rfl⟩

theorem toggle_jog_round_trip_witness :
    switch_turn_off (switch_turn_on (some "J")) = some "J" :=
  (toggle_jog_round_trip (some "J") (Or.inl rfl)).1

/-- Claim C8, counterexample: the empty command string is not
`"set_aspect_ratio"`, yet `async_send_command` on it iterates zero
characters, raises nothing, and invokes no device operation — so it is
not true that every non-`"set_aspect_ratio"` command raises
`HomeAssistantError`. -/
theorem send_command_empty_accepted :
    async_send_command "" "x" (.ok ()) = ([], none)
  ∧ ("" : String) ≠ "set_aspect_ratio" := by
  exact ⟨rfl, by decide⟩

theorem singleton_not_valid_command (c : Char) :
    String.singleton c ∉ VALID_COMMANDS := by
  intro h
  simp only [VALID_COMMANDS, List.mem_cons, List.not_mem_nil, or_false] at h
  rcases h with h | h | h | h
  all_goals
    have hl := congrArg String.length h
    rw [show (String.singleton c).length = 1 from rfl] at hl
    exact absurd hl (by decide)

/-- Claim C8, amended: every nonempty command string other than
`"set_aspect_ratio"` — including the nominally valid `"clear"`,
`"halt"`, `"home"`, `"diagnostics"` — makes `async_send_command` raise
`HomeAssistantError` on its first character (no single character belongs
to `VALID_COMMANDS`, whose members all have length greater than one) and
invoke no device operation; the empty string invokes no device operation
and raises nothing. -/
theorem send_command_rejects_all_nonempty (command ar : String)
    (dev : Except PyExc Unit)
    (hne : command ≠ "") (hns : command ≠ "set_aspect_ratio") :
    async_send_command command ar dev = ([], some .haError) := by
  obtain ⟨data⟩ := command
  unfold async_send_command
  rw [if_neg hns]
  cases data with
  | nil => exact absurd rfl hne
  | cons c rest =>
      show send_chars (c :: rest) = ([], some .haError)
      unfold send_chars
      rw [if_neg (singleton_not_valid_command c)]

theorem send_command_rejects_all_nonempty_witness :
    async_send_command "clear" "" (.ok ()) = ([], some .haError) :=
  send_command_rejects_all_nonempty "clear" "" (.ok ()) (by decide) (by decide)

/-- Claim C9: a failed `move_motors` service call is not atomic —
`current_movement_code` is assigned the call's movement code before
`device.move_motors` is invoked and is not restored when that call
raises `ConnectionError` or `ValueError`; the handler swallows the error
and returns normally with the movement mode changed. -/
theorem move_motors_failure_not_atomic (st : MaskRatioSettings) (d m : String)
    (mc : Option String) (e : PyExc)
    (hd : d = "in" ∨ d = "out")
    (he : e = .connectionError ∨ e = .valueError) :
    (move_motors_handler st d m mc (.error e)).1.current_movement_code = mc
  ∧ (move_motors_handler st d m mc (.error e)).2.2 = .ok () := by
  rcases hd with rfl | rfl <;> rcases he with rfl | rfl <;> exact ⟨rfl, rfl⟩

theorem move_motors_failure_not_atomic_witness :
    (move_motors_handler ⟨0, [], [], [], none, none, none⟩
        "in" "T" (some "J") (.error .connectionError)).1.current_movement_code
      = some "J"
  ∧ (⟨0, [], [], [], none, none, none⟩ :
        MaskRatioSettings).current_movement_code = none := by
  have h := move_motors_failure_not_atomic ⟨0, [], [], [], none, none, none⟩
    "in" "T" (some "J") .connectionError (Or.inl rfl) (Or.inl rfl)
  exact ⟨h.1, rfl⟩

/-- Claim C10: whenever `current_ratio` is not a key of the ratios table
(unset or stale), the Screen Width, Height and Diagonal sensor value
computations raise `KeyError` from the unguarded
`ratios[current_ratio]` subscript instead of returning `None`, while the
ratio select entity's `current_option` guards the same lookup and
returns the empty string. -/
theorem sensors_unguarded_select_guarded (ms : MaskRatioSettings)
    (h : current_ratio_missing ms = true) :
    sensor_width_value ms = .error .keyError
  ∧ sensor_height_value ms = .error .keyError
  ∧ sensor_diagonal_value ms = .error .keyError
  ∧ select_ratio_current_option ms = "" := by
  have hsub : ratio_subscript ms = .error .keyError := by
    unfold current_ratio_missing at h
    cases hc : ms.current_ratio with
    | none => simp [ratio_subscript, hc]
    | some k =>
        rw [hc] at h
        cases hd : dict_get ms.ratios k with
        | none => simp [ratio_subscript, hc, hd]
        | some info => simp [hd] at h
  have hsel : select_ratio_current_option ms = "" := by
    unfold current_ratio_missing at h
    cases hc : ms.current_ratio with
    | none => simp [select_ratio_current_option, hc]
    | some k =>
        rw [hc] at h
        cases hd : dict_get ms.ratios k with
        | none => simp [select_ratio_current_option, hc, hd]
        | some info => simp [hd] at h
  refine ⟨?_, ?_, ?_, hsel⟩
  · rw [sensor_width_value, hsub]; rfl
  · rw [sensor_height_value, hsub]; rfl
  · rw [sensor_diagonal_value, hsub]; rfl

theorem sensors_unguarded_select_guarded_witness :
    sensor_width_value ⟨0, [], [], [], some 3, none, none⟩ = .error .keyError
  ∧ select_ratio_current_option ⟨0, [], [], [], some 3, none, none⟩ = "" := by
  have h := sensors_unguarded_select_guarded
    ⟨0, [], [], [], some 3, none, none⟩ (by decide)
  exact ⟨h.1, h.2.2.2⟩
